import Mathlib

/-!
# vpnmon — verification of the spec's claims against the code

Shallow embedding of the vpnmon monitoring tool (vpnmon.py,
vpnmon_utilities.py, vpnmon_vpnclient.py).  Effectful Python code is
modelled by explicit environments describing the outcomes of the external
interactions (ping responses, wexpect expect results, file-system attempt
results) and by explicit event traces recording the side effects the code
performs (connect/close calls, alert pulses, datalog flushes).
-/

namespace Vpnmon

/-- The tri-state outcome strings 'Good' / 'Warn' / 'Fail' used throughout
vpnmon. -/
inductive Outcome
  | good
  | warn
  | fail
deriving DecidableEq, Repr

/-! ## pinger (vpnmon_utilities.py lines 220-253)

`pinger(siteurlip, p_count, p_timeout)` loops `p_count` times; each
iteration issues a ping and checks `ping_list._responses[0].success`,
incrementing `good` on success.  The environment `resp i` gives the
success bit observed on iteration `i`. -/

/-- Number of loop iterations of `pinger` whose first ping response
succeeded: the final value of the `good` counter. -/
def pingerGood (k : Nat) (resp : Nat → Bool) : Nat :=
  ((List.range k).filter resp).length

/-- `pinger` from vpnmon_utilities.py: after the loop, classify the
`good` counter against `p_count`. -/
def pinger (k : Nat) (resp : Nat → Bool) : Outcome :=
  if pingerGood k resp = k then .good
  else if pingerGood k resp = 0 then .fail
  else .warn

/-! ## datalogger (vpnmon_utilities.py lines 316-391)

Each pass of the `while write_retry > 0` loop attempts to open the datalog
file for append and write all rows.  The attempt can succeed, raise
`PermissionError` (sharing/permission conflict), or raise any other
exception.  `att i` is the outcome of the `i`-th attempt (0-based). -/

/-- Outcome of one open/write/close attempt inside `datalogger`. -/
inductive AttemptRes
  | ok
  | permError
  | otherError
deriving DecidableEq, Repr

/-- Result of a `datalogger` call: either it returns an outcome string to
the caller, or it takes the fatal path, attempting `sd.vpnclient.close()`
(with any failure swallowed) and exiting the process with the given code. -/
inductive DLResult
  | ret (o : Outcome)
  | fatal (closeAttempted : Bool) (exitCode : Nat)
deriving DecidableEq, Repr

/-- The `while write_retry > 0` loop of `datalogger`, with `k` the current
value of `write_retry` and `i` the index of the next attempt.
On `PermissionError` the counter is decremented and the loop continues
(after a message/sleep); on any other exception the code attempts
`sd.vpnclient.close()` inside try/except-pass — `closeRaises` says whether
that close raises, and the result does not depend on it because the
exception is swallowed — and calls `exit(1)`; on success `write_retry` is
set to 0 and `return_value` to 'Good'. -/
def dlLoop (closeRaises : Bool) (att : Nat → AttemptRes) : Nat → Nat → DLResult
  | 0, _ => .ret .fail
  | k + 1, i =>
    match att i with
    | .ok => .ret .good
    | .permError => dlLoop closeRaises att k (i + 1)
    | .otherError => .fatal true 1

/-- `VPNMON_DATALOG_WRITE_MAX_RETRIES` from vpnmon_utilities.py line 41. -/
def VPNMON_DATALOG_WRITE_MAX_RETRIES : Nat := 5

/-- `datalogger` from vpnmon_utilities.py: run the retry loop with
`write_retry = VPNMON_DATALOG_WRITE_MAX_RETRIES` starting at attempt 0. -/
def datalogger (closeRaises : Bool) (att : Nat → AttemptRes) : DLResult :=
  dlLoop closeRaises att VPNMON_DATALOG_WRITE_MAX_RETRIES 0

/-! ## The orchestrator test cycle (vpnmon.py lines 150-237)

One test cycle of `main()`.  The environment fixes what the external world
does: the gateway ping classification, what `sd.vpnclient.open` would
return if called, the behavior of each target's `pinger` call (an outcome,
or an exception raised out of `pinger`, which `main` does not catch), and
what `sd.vpnclient.close` returns.  The output records the `test_results`
rows in insertion order and a trace of the side-effecting calls. -/

/-- What a `pinger` call on a target does: return an outcome, or raise
(e.g. the underlying `ping` raising on an unresolvable host), which
propagates out of `main` uncaught. -/
inductive ProbeRes
  | out (o : Outcome)
  | raised
deriving DecidableEq, Repr

/-- Kind field of a `test_results` row (the fourth CSV field). -/
inductive RecKind
  | vpnPing
  | vpnOpen
  | targetPing (addr : String)
  | vpnClose
deriving DecidableEq, Repr

/-- One `test_results` row: its kind and its outcome field. -/
structure Rec where
  kind : RecKind
  outcome : Outcome
deriving DecidableEq, Repr

/-- Side-effecting calls made by a cycle, in program order:
`sounder(s_count = n)` alert calls, the `sd.vpnclient.open` call, the
`sd.vpnclient.close` call, and the `datalogger` flush. -/
inductive Event
  | alert (n : Nat)
  | connect
  | close
  | flush
deriving DecidableEq, Repr

/-- Environment of one test cycle. -/
structure CycleEnv where
  vpnPing : Outcome
  openRes : Outcome
  targets : List (String × ProbeRes)
  closeRes : Outcome
deriving Repr

/-- Output of one test cycle: the `test_results` rows in insertion order,
the side-effect trace, and whether an uncaught exception propagated out of
the cycle (aborting the run before close/flush). -/
structure CycleOut where
  records : List Rec
  events : List Event
  raised : Bool
deriving DecidableEq, Repr

/-- The target-probe `for target in targets` loop (vpnmon.py lines
193-212): each target is pinged; a non-Good result fires
`sounder(s_count = 1)`; a raising `pinger` call aborts the loop (and the
cycle) immediately, producing no row for that target. -/
def probeLoop : List (String × ProbeRes) → List Rec × List Event × Bool
  | [] => ([], [], false)
  | (_, .raised) :: _ => ([], [], true)
  | (a, .out o) :: rest =>
    (⟨.targetPing a, o⟩ :: (probeLoop rest).1,
     (if o ≠ .good then [Event.alert 1] else []) ++ (probeLoop rest).2.1,
     (probeLoop rest).2.2)

/-- One test cycle of `main()` (vpnmon.py lines 150-237).  The VPN ping is
always recorded; `open` is attempted only when the ping was Good, but a
'VPN open' row is recorded unconditionally with the assumed-'Fail' result
when no attempt was made; targets are probed and then `close` is called
only when `open` returned Good; finally the rows are flushed via
`datalogger` — unless a target probe raised, in which case the exception
propagates and neither close nor flush happens. -/
def runCycle (env : CycleEnv) : CycleOut :=
  let alerts0 : List Event := if env.vpnPing ≠ .good then [.alert 3] else []
  let recs0 : List Rec := [⟨.vpnPing, env.vpnPing⟩]
  let openRes := if env.vpnPing = .good then env.openRes else .fail
  let ev1 : List Event := if env.vpnPing = .good then [.connect] else []
  let alerts1 : List Event := if openRes ≠ .good then [.alert 3] else []
  let recs1 : List Rec := [⟨.vpnOpen, openRes⟩]
  if openRes = .good then
    let p := probeLoop env.targets
    if p.2.2 then
      ⟨recs0 ++ recs1 ++ p.1, alerts0 ++ ev1 ++ alerts1 ++ p.2.1, true⟩
    else
      let cevs : List Event :=
        [.close] ++ (if env.closeRes ≠ .good then [.alert 3] else [])
      let crecs : List Rec := [⟨.vpnClose, env.closeRes⟩]
      ⟨recs0 ++ recs1 ++ p.1 ++ crecs,
       alerts0 ++ ev1 ++ alerts1 ++ p.2.1 ++ cevs ++ [.flush], false⟩
  else
    ⟨recs0 ++ recs1, alerts0 ++ ev1 ++ alerts1 ++ [.flush], false⟩

/-! ## VPNClient.open (vpnmon_vpnclient.py lines 49-390)

`open()` drives the Cisco AnyConnect CLI through a fixed sequence of
sendline/expect steps.  The environment records, for each interaction,
what the underlying wexpect call did: for a single-pattern `expect`,
either the pattern matched or an exception was raised; for a
multi-pattern `expect`, which listed pattern matched (a `wexpect.TIMEOUT`
entry in the list matches on timeout instead of raising) or that an
exception was raised. -/

/-- Result of a single-pattern `expect` (plus the `sendline` before it):
the pattern matched, or an exception (timeout or other) was raised. -/
inductive X1
  | matched
  | exn
deriving DecidableEq, Repr

/-- Result of the 5-pattern `expect` after `connect <site>` (vpnmon_vpnclient.py
lines 162-166): which pattern matched, or an exception was raised. -/
inductive XConnect
  | username
  | domainFail
  | notAvail
  | noVerify
  | timeout
  | exn
deriving DecidableEq, Repr

/-- Result of the 3-pattern `expect` after sending the password
(vpnmon_vpnclient.py lines 255-257). -/
inductive XLogin
  | accept
  | loginFailed
  | timeout
  | exn
deriving DecidableEq, Repr

/-- Result of the 4-pattern `expect` after accepting the banner
(vpnmon_vpnclient.py lines 312-315). -/
inductive XBanner
  | connected
  | tryAgain
  | driverError
  | timeout
  | exn
deriving DecidableEq, Repr

/-- Environment of one `VPNClient.open` call: the outcome of each
external interaction, in program order. -/
structure OpenEnv where
  /-- The two preemptive `taskkill` runs (lines 96-102): true iff no
  exception was raised. -/
  killOk : Bool
  /-- `wexpect.spawn` of cmd.exe plus `expect('>')` (lines 104-117). -/
  spawnX : X1
  /-- `sendline(vpncli)` plus `expect('VPN>')` (lines 119-137). -/
  cliX : X1
  /-- The initial `sendline('disconnect')` plus `expect('VPN>')`
  (lines 139-156). -/
  discX : X1
  /-- `sendline('connect <site>')` plus the 5-pattern expect
  (lines 158-246). -/
  connX : XConnect
  /-- `sendline(username)` plus `expect('Password:')` (lines 249-252). -/
  passX : X1
  /-- `sendline(password)` plus the 3-pattern expect (lines 253-306). -/
  loginX : XLogin
  /-- `sendline('y')` plus the 4-pattern expect (lines 308-364). -/
  bannX : XBanner
  /-- `expect('Connected to <site>')` (line 366). -/
  connectedX : X1
  /-- The final `expect('VPN>')` (line 367). -/
  promptX : X1
deriving DecidableEq, Repr

/-- Result of a `VPNClient.open` call.  `good`: returned 'Good' with the
session connected.  `fail`: returned 'Fail'; `teardown` records that
forced termination of the child process (terminate + taskkill) was
attempted first.  `fatal`: the whole process was terminated via
`exit(code)`; `teardown` records whether termination of the child was
attempted before exiting. -/
inductive OpenResult
  | good
  | fail (teardown : Bool)
  | fatal (exitCode : Nat) (teardown : Bool)
deriving DecidableEq, Repr

/-- `VPNClient.open` from vpnmon_vpnclient.py, step by step.  Failures
in the preemptive kill and the spawn call `exit(1)` with no child
teardown; failures starting the CLI or issuing the initial disconnect
attempt teardown and then call `exit(1)`; every deviation from the
`connect` command onward attempts teardown and returns 'Fail'; 'Good' is
returned only when every expected pattern matched in order. -/
def VPNClient.open (env : OpenEnv) : OpenResult :=
  if !env.killOk then .fatal 1 false
  else match env.spawnX with
  | .exn => .fatal 1 false
  | .matched => match env.cliX with
    | .exn => .fatal 1 true
    | .matched => match env.discX with
      | .exn => .fatal 1 true
      | .matched => match env.connX with
        | .domainFail => .fail true
        | .notAvail => .fail true
        | .noVerify => .fail true
        | .timeout => .fail true
        | .exn => .fail true
        | .username => match env.passX with
          | .exn => .fail true
          | .matched => match env.loginX with
            | .loginFailed => .fail true
            | .timeout => .fail true
            | .exn => .fail true
            | .accept => match env.bannX with
              | .tryAgain => .fail true
              | .driverError => .fail true
              | .timeout => .fail true
              | .exn => .fail true
              | .connected => match env.connectedX with
                | .exn => .fail true
                | .matched => match env.promptX with
                  | .exn => .fail true
                  | .matched => .good

/-- The environment in which every `open` interaction succeeds with the
expected pattern. -/
def OpenEnv.allGood : OpenEnv :=
  ⟨true, .matched, .matched, .matched, .username, .matched, .accept,
   .connected, .matched, .matched⟩

/-! ## VPNClient.close (vpnmon_vpnclient.py lines 393-477)

`close()` reads the module global `vpn_proc`, which exists only after
`open` has assigned it: a call before any `open` has ever run raises
`NameError` at `vpn_proc.isalive()` (line 422), uncaught inside `close`.
Otherwise, a dead child short-circuits to 'Good' with no I/O, and a live
child is driven through disconnect/exit/terminate. -/

/-- I/O side effects a `close` call can perform. -/
inductive CloseIO
  | sendDisconnect
  | sendExit
  | terminate
deriving DecidableEq, Repr

/-- Environment for the live-child path of `close`. -/
structure CloseEnv where
  /-- `sendline('disconnect')` plus `expect('VPN>')` (lines 426-429). -/
  discX : X1
  /-- `sendline('exit')` plus `expect('>')` (lines 446-449). -/
  exitX : X1
  /-- The final `terminate(force=True)` + taskkill (lines 467-469):
  true iff no exception was raised. -/
  termOk : Bool
deriving DecidableEq, Repr

/-- Result of a `VPNClient.close` call: an outcome returned to the caller
together with the I/O side effects performed, or an uncaught `NameError`
because `vpn_proc` was never defined. -/
inductive CloseResult
  | ret (o : Outcome) (io : List CloseIO)
  | nameError
deriving DecidableEq, Repr

/-- `VPNClient.close` from vpnmon_vpnclient.py.  `procAlive` is the state
of the module global `vpn_proc`: `none` when no `open` has ever assigned
it, otherwise `some b` with `b` the value of `vpn_proc.isalive()`. -/
def VPNClient.close (procAlive : Option Bool) (env : CloseEnv) : CloseResult :=
  match procAlive with
  | none => .nameError
  | some false => .ret .good []
  | some true =>
    match env.discX with
    | .exn => .ret .fail [.sendDisconnect, .terminate]
    | .matched =>
      match env.exitX with
      | .exn => .ret .fail [.sendDisconnect, .sendExit, .terminate]
      | .matched =>
        if env.termOk then
          .ret .good [.sendDisconnect, .sendExit, .terminate]
        else
          .ret .fail [.sendDisconnect, .sendExit, .terminate]

/-! ## get_targets (vpnmon_utilities.py lines 178-217)

Each line of the targets file has its newline removed and is split with
`line.split(',', 2)`; the first field indexes the `targets` dict and the
second is stored as its value.  A line without a comma yields a single
field, so `ip_and_name[1]` raises `IndexError`, which the
`except Exception` branch turns into a fatal `exit(1)`. -/

/-- Python's `str.split(sep, maxsplit)` on a character list: at most
`fuel` splits are performed, the remainder is kept whole. -/
def pySplit (sep : Char) (fuel : Nat) (cs : List Char) : List (List Char) :=
  match fuel, cs with
  | _, [] => [[]]
  | 0, c :: cs' => [c :: cs']
  | n + 1, c :: cs' =>
    if c = sep then [] :: pySplit sep n cs'
    else
      match pySplit sep (n + 1) cs' with
      | [] => [[c]]
      | f :: fs => (c :: f) :: fs

/-- Python dict assignment `m[k] = v`: overwrite in place if `k` is
present, else append. -/
def dictInsert (m : List (String × String)) (k v : String) :
    List (String × String) :=
  if m.any (fun p => p.1 = k) then
    m.map (fun p => if p.1 = k then (k, v) else p)
  else m ++ [(k, v)]

/-- Result of `get_targets`: the targets mapping, or the fatal-error path
(`exit(code)`). -/
inductive TargetsResult
  | ok (targets : List (String × String))
  | fatalExit (code : Nat)
deriving DecidableEq, Repr

/-- The `for line in targets_file` loop of `get_targets`: split each line
on commas (maxsplit 2); a line with fewer than two fields raises
`IndexError` at `ip_and_name[1]`, caught by the fatal-error branch. -/
def get_targets_go : List String → List (String × String) → TargetsResult
  | [], acc => .ok acc
  | line :: rest, acc =>
    match pySplit ',' 2 line.data with
    | f0 :: f1 :: _ =>
      get_targets_go rest (dictInsert acc (String.mk f0) (String.mk f1))
    | _ => .fatalExit 1

/-- `get_targets` from vpnmon_utilities.py.  `fileExists` models
`os.path.exists(targets_file)`; `openOk` models whether the `open` call
itself succeeds (an I/O failure there also lands in the fatal-error
branch); `lines` are the file's lines with trailing newlines removed. -/
def get_targets (fileExists : Bool) (openOk : Bool) (lines : List String) :
    TargetsResult :=
  if fileExists then
    if openOk then get_targets_go lines [] else .fatalExit 1
  else .ok []

/-! ## get_params exit behavior (vpnmon_utilities.py lines 47-175) -/

/-- Environment of a `get_params` call, restricted to what decides its
exit behavior. -/
structure ParamsEnv where
  /-- `os.path.exists(VPNMON_PARAMS_FILE)`. -/
  fileExists : Bool
  /-- Reading the params file and the `int(...)` conversions all
  succeeded. -/
  fileReadOk : Bool
  /-- The `--version` flag was given. -/
  versionFlag : Bool
  /-- The merged `vpnurlip` value (file value overridden by CLI). -/
  vpnurlip : String
deriving DecidableEq, Repr

/-- Result of `get_params`: the parameters are returned, or the process
exits with the given code. -/
inductive ParamsResult
  | ok
  | exitWith (code : Nat)
deriving DecidableEq, Repr

/-- `get_params` exit behavior: an unreadable-but-present params file is
a fatal `exit(1)`; the version query prints and `exit(0)`; a missing
`vpnurlip` after merging is an `exit(0)` early exit; otherwise the
parameters are returned. -/
def get_params (e : ParamsEnv) : ParamsResult :=
  if e.fileExists && !e.fileReadOk then .exitWith 1
  else if e.versionFlag then .exitWith 0
  else if e.vpnurlip = "" then .exitWith 0
  else .ok

/-! ## signal_handler and main's termination (vpnmon.py lines 52-78,
126-268) -/

/-- Exit code of `signal_handler` (Control-C): both cleanup blocks —
`sd.vpnclient.close()` and `sd.datalogfile.close()` — are wrapped in
try/except-pass, so whatever they raise, the handler reaches
`sys.exit(0)`. -/
def signal_handler_exitCode (_closeRaises : Bool)
    (_datalogCloseRaises : Bool) : Nat := 0

/-- Exit code of the `exit(0)` at the end of `main()` (vpnmon.py line
268), reached on normal completion of all requested cycles. -/
def main_completion_exitCode : Nat := 0

/-- The control skeleton of main's `while not count == 0` loop (vpnmon.py
lines 130-260) for a nonnegative starting count: returns how many test
cycles ran and how many inter-cycle sleeps were executed.  Each iteration
runs one cycle, decrements the positive counter, `continue`s (skipping
the sleep) exactly when the counter reached zero, and otherwise sleeps
before the next iteration. -/
def loopSteps : Nat → Nat × Nat
  | 0 => (0, 0)
  | n + 1 =>
    if n = 0 then (1, 0)
    else ((loopSteps n).1 + 1, (loopSteps n).2 + 1)

/-! ## Helper lemmas -/

lemma dlLoop_reaches_ok (cr : Bool) (att : Nat → AttemptRes) :
    ∀ k i j, j < k → (∀ d, d < j → att (i + d) = .permError) →
      att (i + j) = .ok → dlLoop cr att k i = .ret .good := by
  intro k
  induction k with
  | zero => intro i j hj _ _; omega
  | succ k ih =>
    intro i j hj hperm hok
    cases j with
    | zero =>
      have h0 : att i = .ok := by simpa using hok
      simp [dlLoop, h0]
    | succ j' =>
      have h0 : att i = .permError := by simpa using hperm 0 (by omega)
      simp only [dlLoop, h0]
      refine ih (i + 1) j' (by omega) (fun d hd => ?_) ?_
      · have h := hperm (d + 1) (by omega)
        rwa [show i + (d + 1) = i + 1 + d by omega] at h
      · rwa [show i + (j' + 1) = i + 1 + j' by omega] at hok

lemma dlLoop_all_perm (cr : Bool) (att : Nat → AttemptRes) :
    ∀ k i, (∀ d, d < k → att (i + d) = .permError) →
      dlLoop cr att k i = .ret .fail := by
  intro k
  induction k with
  | zero => intro i _; rfl
  | succ k ih =>
    intro i hperm
    have h0 : att i = .permError := by simpa using hperm 0 (by omega)
    simp only [dlLoop, h0]
    refine ih (i + 1) (fun d hd => ?_)
    have h := hperm (d + 1) (by omega)
    rwa [show i + (d + 1) = i + 1 + d by omega] at h

lemma dlLoop_other_fatal (cr : Bool) (att : Nat → AttemptRes) :
    ∀ k i j, j < k → (∀ d, d < j → att (i + d) = .permError) →
      att (i + j) = .otherError → dlLoop cr att k i = .fatal true 1 := by
  intro k
  induction k with
  | zero => intro i j hj _ _; omega
  | succ k ih =>
    intro i j hj hperm hother
    cases j with
    | zero =>
      have h0 : att i = .otherError := by simpa using hother
      simp [dlLoop, h0]
    | succ j' =>
      have h0 : att i = .permError := by simpa using hperm 0 (by omega)
      simp only [dlLoop, h0]
      refine ih (i + 1) j' (by omega) (fun d hd => ?_) ?_
      · have h := hperm (d + 1) (by omega)
        rwa [show i + (d + 1) = i + 1 + d by omega] at h
      · rwa [show i + (j' + 1) = i + 1 + j' by omega] at hother

lemma pySplit_ne_nil (sep : Char) (fuel : Nat) (cs : List Char) :
    pySplit sep fuel cs ≠ [] := by
  induction cs generalizing fuel with
  | nil => simp [pySplit]
  | cons c cs' ih =>
    cases fuel with
    | zero => simp [pySplit]
    | succ n =>
      simp only [pySplit]
      split_ifs
      · simp
      · rcases hr : pySplit sep (n + 1) cs' with _ | ⟨f, fs⟩ <;> simp

lemma pySplit_length_two_iff (cs : List Char) :
    ∀ fuel, fuel ≠ 0 →
      (2 ≤ (pySplit ',' fuel cs).length ↔ (',') ∈ cs) := by
  induction cs with
  | nil =>
    intro fuel _
    simp [pySplit]
  | cons c cs' ih =>
    intro fuel hfuel
    cases fuel with
    | zero => exact absurd rfl hfuel
    | succ n =>
      by_cases hc : c = ','
      · subst hc
        have hred : pySplit ',' (n + 1) (',' :: cs') =
            [] :: pySplit ',' n cs' := by
          simp [pySplit]
        rw [hred, List.length_cons]
        constructor
        · intro _
          exact List.mem_cons_self _ _
        · intro _
          have h1 : pySplit ',' n cs' ≠ [] := pySplit_ne_nil ',' n cs'
          have h2 : 1 ≤ (pySplit ',' n cs').length :=
            List.length_pos.mpr h1
          omega
      · simp only [pySplit, if_neg hc]
        rcases hr : pySplit ',' (n + 1) cs' with _ | ⟨f, fs⟩
        · exact absurd hr (pySplit_ne_nil ',' (n + 1) cs')
        · have hih := ih (n + 1) (Nat.succ_ne_zero n)
          rw [hr] at hih
          simp only [List.length_cons] at hih ⊢
          rw [List.mem_cons]
          constructor
          · intro h
            exact Or.inr (hih.mp (by omega))
          · intro h
            rcases h with h | h
            · exact absurd h.symm hc
            · have := hih.mpr h
              omega

lemma get_targets_go_ok_iff (lines : List String) :
    ∀ acc, (∃ m, get_targets_go lines acc = .ok m) ↔
      ∀ l ∈ lines, (',') ∈ l.data := by
  induction lines with
  | nil =>
    intro acc
    simp [get_targets_go]
  | cons line rest ih =>
    intro acc
    by_cases hc : (',') ∈ line.data
    · have h2 : 2 ≤ (pySplit ',' 2 line.data).length :=
        (pySplit_length_two_iff line.data 2 (by omega)).mpr hc
      rcases hr : pySplit ',' 2 line.data with _ | ⟨f0, rest2⟩
      · rw [hr] at h2; simp at h2
      · rcases rest2 with _ | ⟨f1, r⟩
        · rw [hr] at h2; simp at h2
        · simp only [get_targets_go, hr]
          rw [ih _]
          constructor
          · intro h l hl
            rcases List.mem_cons.mp hl with h' | h'
            · rw [h']; exact hc
            · exact h l h'
          · intro h l hl
            exact h l (List.mem_cons_of_mem _ hl)
    · have h2 : ¬ 2 ≤ (pySplit ',' 2 line.data).length := fun h =>
        hc ((pySplit_length_two_iff line.data 2 (by omega)).mp h)
      constructor
      · intro hex
        rcases hr : pySplit ',' 2 line.data with _ | ⟨f0, rest2⟩
        · simp only [get_targets_go, hr] at hex
          rcases hex with ⟨m, hm⟩
          cases hm
        · rcases rest2 with _ | ⟨f1, r⟩
          · simp only [get_targets_go, hr] at hex
            rcases hex with ⟨m, hm⟩
            cases hm
          · rw [hr] at h2
            simp at h2
      · intro h
        exact absurd (h line (List.mem_cons_self _ _)) hc

lemma get_targets_go_fatal (lines : List String) :
    ∀ acc, (∃ l ∈ lines, (',') ∉ l.data) →
      get_targets_go lines acc = .fatalExit 1 := by
  induction lines with
  | nil =>
    intro acc h
    rcases h with ⟨l, hl, _⟩
    simp at hl
  | cons line rest ih =>
    intro acc h
    by_cases hc : (',') ∈ line.data
    · have h2 : 2 ≤ (pySplit ',' 2 line.data).length :=
        (pySplit_length_two_iff line.data 2 (by omega)).mpr hc
      rcases hr : pySplit ',' 2 line.data with _ | ⟨f0, rest2⟩
      · rw [hr] at h2; simp at h2
      · rcases rest2 with _ | ⟨f1, r⟩
        · rw [hr] at h2; simp at h2
        · simp only [get_targets_go, hr]
          refine ih _ ?_
          rcases h with ⟨l, hl, hlc⟩
          rcases List.mem_cons.mp hl with h' | h'
          · rw [h'] at hlc; exact absurd hc hlc
          · exact ⟨l, h', hlc⟩
    · have h2 : ¬ 2 ≤ (pySplit ',' 2 line.data).length := fun h' =>
        hc ((pySplit_length_two_iff line.data 2 (by omega)).mp h')
      rcases hr : pySplit ',' 2 line.data with _ | ⟨f0, rest2⟩
      · simp only [get_targets_go, hr]
      · rcases rest2 with _ | ⟨f1, r⟩
        · simp only [get_targets_go, hr]
        · rw [hr] at h2
          simp at h2

lemma probeLoop_events_alert (ts : List (String × ProbeRes)) :
    ∀ e ∈ (probeLoop ts).2.1, ∃ n, e = Event.alert n := by
  induction ts with
  | nil => simp [probeLoop]
  | cons t rest ih =>
    obtain ⟨a, pr⟩ := t
    cases pr with
    | raised => simp [probeLoop]
    | out o =>
      intro e he
      simp only [probeLoop, List.mem_append] at he
      rcases he with he | he
      · rcases (by split_ifs at he <;> simp_all :
          e = Event.alert 1) with rfl
        exact ⟨1, rfl⟩
      · exact ih e he

lemma probeLoop_no_raise (ts : List (String × ProbeRes)) :
    (∀ t ∈ ts, t.2 ≠ .raised) → (probeLoop ts).2.2 = false := by
  induction ts with
  | nil => intro _; rfl
  | cons t rest ih =>
    intro h
    obtain ⟨a, pr⟩ := t
    cases pr with
    | raised =>
      exact absurd rfl (h (a, .raised) (List.mem_cons_self _ _))
    | out o =>
      simp only [probeLoop]
      exact ih (fun t ht => h t (List.mem_cons_of_mem _ ht))

/-! ## Claim theorems -/

/-- C4: for every repetition count `k ≥ 1` and every sequence of ping
results, `pinger` returns Good iff all `k` iterations succeeded, Fail iff
none did, Warn otherwise, and never anything outside {Good, Warn, Fail}. -/
theorem pinger_tri_state (k : Nat) (hk : 1 ≤ k) (resp : Nat → Bool) :
    (pinger k resp = .good ↔ pingerGood k resp = k) ∧
    (pinger k resp = .fail ↔ pingerGood k resp = 0) ∧
    (pinger k resp = .warn ↔
      (pingerGood k resp ≠ k ∧ pingerGood k resp ≠ 0)) ∧
    (pinger k resp = .good ∨ pinger k resp = .warn ∨
      pinger k resp = .fail) := by
  unfold pinger
  refine ⟨?_, ?_, ?_, ?_⟩ <;> split_ifs with h1 h2 <;> simp_all
  omega

/-- Witness for C4: with `k = 2` repetitions and exactly one success the
classification is Warn. -/
theorem pinger_tri_state_witness :
    pinger 2 (fun i => i == 0) = .warn :=
  ((pinger_tri_state 2 (by decide) (fun i => i == 0)).2.2.1).mpr (by decide)

/-- C8: for every configured cycle count `c > 0`, main's loop runs
exactly `c` test cycles and executes the inter-cycle sleep exactly
`c - 1` times (never after the final cycle). -/
theorem loop_runs_c_cycles (c : Nat) (hc : 0 < c) :
    loopSteps c = (c, c - 1) := by
  induction c with
  | zero => omega
  | succ n ih =>
    rcases Nat.eq_zero_or_pos n with h | h
    · subst h; rfl
    · simp only [loopSteps, if_neg (Nat.pos_iff_ne_zero.mp h), ih h,
        Prod.mk.injEq]
      exact ⟨trivial, by omega⟩

/-- Witness for C8: three requested cycles run three times with two
sleeps. -/
theorem loop_runs_c_cycles_witness : loopSteps 3 = (3, 2) :=
  loop_runs_c_cycles 3 (by decide)

/-- C6: if the sharing/permission conflict clears after fewer consecutive
failed attempts than the retry bound, `datalogger` returns Good; if it
persists for the whole bound of 5 attempts, `datalogger` returns Fail to
the caller rather than taking the fatal path. -/
theorem datalogger_contention_retry (closeRaises : Bool)
    (att : Nat → AttemptRes) :
    (∀ j, j < VPNMON_DATALOG_WRITE_MAX_RETRIES →
        (∀ i, i < j → att i = .permError) → att j = .ok →
        datalogger closeRaises att = .ret .good) ∧
    ((∀ i, i < VPNMON_DATALOG_WRITE_MAX_RETRIES → att i = .permError) →
        datalogger closeRaises att = .ret .fail) := by
  constructor
  · intro j hj hperm hok
    exact dlLoop_reaches_ok closeRaises att _ 0 j hj
      (fun d hd => by simpa using hperm d hd) (by simpa using hok)
  · intro h
    exact dlLoop_all_perm closeRaises att _ 0
      (fun d hd => by simpa using h d hd)

/-- Witness for C6: contention on the first two attempts then success
gives Good; contention on every attempt gives Fail. -/
theorem datalogger_contention_retry_witness :
    datalogger true (fun i => if i < 2 then .permError else .ok) =
      .ret .good ∧
    datalogger true (fun _ => .permError) = .ret .fail :=
  ⟨(datalogger_contention_retry true _).1 2 (by decide)
      (fun i hi => by simp [hi]) (by simp),
   (datalogger_contention_retry true _).2 (fun i _ => rfl)⟩

/-- C7: a `datalogger` attempt that fails with anything other than the
sharing/permission conflict makes the process attempt
`sd.vpnclient.close()` (its own failure swallowed — the result does not
depend on `closeRaises`) and then exit with code 1. -/
theorem datalogger_other_failure_fatal (closeRaises : Bool)
    (att : Nat → AttemptRes) (j : Nat)
    (hj : j < VPNMON_DATALOG_WRITE_MAX_RETRIES)
    (hperm : ∀ i, i < j → att i = .permError)
    (hother : att j = .otherError) :
    datalogger closeRaises att = .fatal true 1 :=
  dlLoop_other_fatal closeRaises att _ 0 j hj
    (fun d hd => by simpa using hperm d hd) (by simpa using hother)

/-- Witness for C7: an immediate non-contention failure is fatal with
exit code 1 after a close attempt, whether or not the close raises. -/
theorem datalogger_other_failure_fatal_witness :
    datalogger true (fun _ => .otherError) = .fatal true 1 :=
  datalogger_other_failure_fatal true (fun _ => .otherError) 0 (by decide)
    (fun i hi => absurd hi (by omega)) rfl

/-- C9: the process exit code is 0 on normal completion, on a version
query, on the missing-gateway-address early exit, and on Control-C
shutdown; it is 1 on an unreadable params file, an unreadable targets
file, a non-contention datalog failure, and a session spawn/pre-emption
failure. -/
theorem process_exit_codes :
    (∀ e : ParamsEnv, e.fileExists = true → e.fileReadOk = false →
        get_params e = .exitWith 1) ∧
    (∀ e : ParamsEnv, (e.fileExists = true → e.fileReadOk = true) →
        e.versionFlag = true → get_params e = .exitWith 0) ∧
    (∀ e : ParamsEnv, (e.fileExists = true → e.fileReadOk = true) →
        e.versionFlag = false → e.vpnurlip = "" →
        get_params e = .exitWith 0) ∧
    (∀ b1 b2 : Bool, signal_handler_exitCode b1 b2 = 0) ∧
    main_completion_exitCode = 0 ∧
    (∀ lines, get_targets true false lines = .fatalExit 1) ∧
    (∀ (cr : Bool) (att : Nat → AttemptRes) (j : Nat),
        j < VPNMON_DATALOG_WRITE_MAX_RETRIES →
        (∀ i, i < j → att i = .permError) → att j = .otherError →
        datalogger cr att = .fatal true 1) ∧
    (∀ env : OpenEnv, env.killOk = false →
        VPNClient.open env = .fatal 1 false) ∧
    (∀ env : OpenEnv, env.spawnX = .exn →
        VPNClient.open env = .fatal 1 false) := by
  refine ⟨?_, ?_, ?_, ?_, rfl, ?_, ?_, ?_, ?_⟩
  · intro e h1 h2
    simp [get_params, h1, h2]
  · intro e h1 h2
    cases hfe : e.fileExists with
    | false => simp [get_params, hfe, h2]
    | true => simp [get_params, hfe, h1 hfe, h2]
  · intro e h1 h2 h3
    cases hfe : e.fileExists with
    | false => simp [get_params, hfe, h2, h3]
    | true => simp [get_params, hfe, h1 hfe, h2, h3]
  · intro b1 b2
    rfl
  · intro lines
    rfl
  · intro cr att j hj hperm hother
    exact dlLoop_other_fatal cr att _ 0 j hj
      (fun d hd => by simpa using hperm d hd) (by simpa using hother)
  · intro env h
    simp [VPNClient.open, h]
  · intro env h
    cases hk : env.killOk with
    | false => simp [VPNClient.open, hk]
    | true => simp [VPNClient.open, hk, h]

/-- Witness for C9: concrete runs of every exit path with the claimed
exit codes. -/
theorem process_exit_codes_witness :
    get_params ⟨true, false, false, "vpn.example.org"⟩ = .exitWith 1 ∧
    get_params ⟨false, true, true, "vpn.example.org"⟩ = .exitWith 0 ∧
    get_params ⟨false, true, false, ""⟩ = .exitWith 0 ∧
    signal_handler_exitCode true true = 0 ∧
    main_completion_exitCode = 0 ∧
    get_targets true false ["10.0.0.2,host-a"] = .fatalExit 1 ∧
    datalogger false (fun _ => .otherError) = .fatal true 1 ∧
    VPNClient.open ⟨false, .matched, .matched, .matched, .username,
      .matched, .accept, .connected, .matched, .matched⟩ =
      .fatal 1 false ∧
    VPNClient.open ⟨true, .exn, .matched, .matched, .username, .matched,
      .accept, .connected, .matched, .matched⟩ = .fatal 1 false :=
  ⟨process_exit_codes.1 _ rfl rfl,
   process_exit_codes.2.1 _ (fun h => by cases h) rfl,
   process_exit_codes.2.2.1 _ (fun h => by cases h) rfl rfl,
   process_exit_codes.2.2.2.1 true true,
   process_exit_codes.2.2.2.2.1,
   process_exit_codes.2.2.2.2.2.1 _,
   process_exit_codes.2.2.2.2.2.2.1 false _ 0 (by decide)
     (fun i hi => absurd hi (by omega)) rfl,
   process_exit_codes.2.2.2.2.2.2.2.1 _ rfl,
   process_exit_codes.2.2.2.2.2.2.2.2 _ rfl⟩

/-- C10: for a targets file that exists and opens, `get_targets` returns
a mapping exactly when every line contains a comma; a line with no comma
(an empty line included) takes the fatal-error path with exit code 1
instead of being skipped or the partial mapping being returned. -/
theorem get_targets_requires_comma (lines : List String) :
    ((∃ m, get_targets true true lines = .ok m) ↔
      ∀ l ∈ lines, (',') ∈ l.data) ∧
    ((∃ l ∈ lines, (',') ∉ l.data) →
      get_targets true true lines = .fatalExit 1) := by
  constructor
  · simpa [get_targets] using get_targets_go_ok_iff lines []
  · intro h
    simpa [get_targets] using get_targets_go_fatal lines [] h

/-- Witness for C10: a one-line targets file whose line has no comma
exits fatally with code 1. -/
theorem get_targets_requires_comma_witness :
    get_targets true true ["10.0.0.7"] = .fatalExit 1 :=
  (get_targets_requires_comma ["10.0.0.7"]).2
    ⟨"10.0.0.7", by decide, by decide⟩

/-- C10 scenario check: an empty line also takes the fatal path, and a
well-formed file parses. -/
theorem get_targets_empty_line_fatal :
    get_targets true true ["10.0.0.2,host-a", ""] = .fatalExit 1 ∧
    get_targets true true ["10.0.0.2,host-a"] =
      .ok [("10.0.0.2", "host-a")] := by
  constructor <;> decide

/-- C3 counterexample: a `close` call made before any `open` has ever run
(so the module global `vpn_proc` is undefined) raises `NameError` instead
of returning Good with no I/O. -/
theorem close_before_any_open_counterexample :
    VPNClient.close none ⟨.matched, .matched, true⟩ = .nameError ∧
    VPNClient.close none ⟨.matched, .matched, true⟩ ≠
      .ret .good [] := by
  constructor
  · rfl
  · decide

/-- C3 (amended): once some `open` has defined `vpn_proc`, a `close`
call with the child process not alive returns Good and performs no I/O;
a call before any `open` instead raises `NameError`. -/
theorem close_dead_child_noop (env : CloseEnv) :
    VPNClient.close (some false) env = .ret .good [] ∧
    VPNClient.close none env = .nameError :=
  ⟨rfl, rfl⟩

/-- C2 counterexample: a deviation at the CLI-start step (the tool never
shows its prompt, so the `expect('VPN>')` raises) terminates the whole
process via `exit(1)` instead of returning Fail to the caller. -/
theorem open_cli_step_failure_counterexample :
    VPNClient.open ⟨true, .matched, .exn, .matched, .username, .matched,
      .accept, .connected, .matched, .matched⟩ = .fatal 1 true ∧
    VPNClient.open ⟨true, .matched, .exn, .matched, .username, .matched,
      .accept, .connected, .matched, .matched⟩ ≠ .fail true ∧
    VPNClient.open ⟨true, .matched, .exn, .matched, .username, .matched,
      .accept, .connected, .matched, .matched⟩ ≠ .fail false := by
  refine ⟨rfl, ?_, ?_⟩ <;> decide

/-- C2 (amended): `open` returns Good iff every step's expected pattern
matched in order; every deviation from the `connect` command onward
returns Fail after forced teardown of the child process; a failure in
the preemptive kill, spawn, CLI-start, or initial-disconnect steps
instead terminates the whole process with exit code 1. -/
theorem open_protocol (env : OpenEnv) :
    (VPNClient.open env = .good ↔ env = OpenEnv.allGood) ∧
    (env.killOk = true → env.spawnX = .matched → env.cliX = .matched →
      env.discX = .matched →
      VPNClient.open env = .good ∨ VPNClient.open env = .fail true) ∧
    (VPNClient.open env = .good ∨ VPNClient.open env = .fail true ∨
      VPNClient.open env = .fatal 1 true ∨
      VPNClient.open env = .fatal 1 false) := by
  obtain ⟨k, s, c, d, cn, p, l, b, cx, px⟩ := env
  cases k with
  | false => simp [VPNClient.open, OpenEnv.allGood]
  | true =>
    cases s with
    | exn => simp [VPNClient.open, OpenEnv.allGood]
    | matched =>
      cases c with
      | exn => simp [VPNClient.open, OpenEnv.allGood]
      | matched =>
        cases d with
        | exn => simp [VPNClient.open, OpenEnv.allGood]
        | matched =>
          cases cn <;> cases p <;> cases l <;> cases b <;> cases cx <;>
            cases px <;> decide

/-- Witness for C2 (amended): the all-match script yields Good, and a
domain-resolution failure at the connect step yields Fail with
teardown. -/
theorem open_protocol_witness :
    VPNClient.open OpenEnv.allGood = .good ∧
    VPNClient.open ⟨true, .matched, .matched, .matched, .domainFail,
      .matched, .accept, .connected, .matched, .matched⟩ =
      .fail true := by
  constructor
  · exact (open_protocol OpenEnv.allGood).1.mpr rfl
  · rcases (open_protocol ⟨true, .matched, .matched, .matched,
      .domainFail, .matched, .accept, .connected, .matched,
      .matched⟩).2.1 rfl rfl rfl rfl with h | h
    · exact absurd h (by decide)
    · exact h

/-- C1 counterexample: a target probe that raises (the unguarded `pinger`
call propagating out of `main`) aborts the cycle with no disconnect call
and no flush, violating the pairing invariant for connect-successful
cycles. -/
theorem cycle_probe_raise_counterexample :
    (runCycle ⟨.good, .good, [("10.0.0.2", .raised)], .good⟩).events.count
      Event.close = 0 ∧
    Event.flush ∉
      (runCycle ⟨.good, .good, [("10.0.0.2", .raised)], .good⟩).events ∧
    (runCycle ⟨.good, .good, [("10.0.0.2", .raised)], .good⟩).raised =
      true := by
  decide

/-- C1 (amended): for every cycle where the gateway session connect
returns Good and no target probe raises, exactly one disconnect call
occurs, before the cycle's records are flushed, whatever outcomes the
target probes return; a raising target probe instead aborts the cycle
before both the disconnect and the flush. -/
theorem cycle_connect_close_pairing (env : CycleEnv)
    (hping : env.vpnPing = .good) (hopen : env.openRes = .good)
    (hnoraise : ∀ t ∈ env.targets, t.2 ≠ .raised) :
    ∃ pre post, (runCycle env).events = pre ++ Event.close :: post ∧
      Event.close ∉ pre ∧ Event.close ∉ post ∧ Event.flush ∈ post ∧
      (runCycle env).raised = false := by
  have hraise := probeLoop_no_raise env.targets hnoraise
  refine ⟨Event.connect :: (probeLoop env.targets).2.1,
    (if env.closeRes ≠ .good then [Event.alert 3] else []) ++
      [Event.flush], ?_, ?_, ?_, ?_, ?_⟩
  · simp [runCycle, hping, hopen, hraise]
  · intro hmem
    rcases List.mem_cons.mp hmem with h | h
    · exact absurd h (by decide)
    · obtain ⟨n, hn⟩ := probeLoop_events_alert env.targets _ h
      cases hn
  · intro hmem
    rcases List.mem_append.mp hmem with h | h
    · split_ifs at h <;> simp_all
    · simp at h
  · simp
  · simp [runCycle, hping, hopen, hraise]

/-- Witness for C1 (amended): a connect-successful cycle with one Good
target probe performs its single close before the flush. -/
theorem cycle_connect_close_pairing_witness :
    ∃ pre post,
      (runCycle ⟨.good, .good, [("10.0.0.2", .out .good)],
        .good⟩).events = pre ++ Event.close :: post ∧
      Event.close ∉ pre ∧ Event.close ∉ post ∧ Event.flush ∈ post ∧
      (runCycle ⟨.good, .good, [("10.0.0.2", .out .good)],
        .good⟩).raised = false :=
  cycle_connect_close_pairing _ rfl rfl (by decide)

/-- C5 counterexample: with a gateway probe that returns Fail, the cycle
logs two Fail records (the gateway-probe record and the unconditionally
recorded session-open record) and fires two three-pulse alerts, not the
claimed single Fail record and single alert pulse. -/
theorem gateway_fail_single_record_counterexample :
    (runCycle ⟨.fail, .good, [], .good⟩).records.countP
      (fun r => r.outcome == Outcome.fail) = 2 ∧
    (runCycle ⟨.fail, .good, [], .good⟩).events =
      [Event.alert 3, Event.alert 3, Event.flush] := by
  decide

/-- C5 (amended): for every cycle whose gateway probe returns Fail, no
connect attempt is made and no target-probe records are produced, but two
three-pulse alerts fire (one for the gateway probe, one for the
assumed-failed session open) and exactly two Fail records — the
gateway-probe record and the session-open record — are logged before the
flush. -/
theorem gateway_fail_cycle (env : CycleEnv) (h : env.vpnPing = .fail) :
    (runCycle env).events = [Event.alert 3, Event.alert 3, Event.flush] ∧
    (runCycle env).records =
      [⟨.vpnPing, .fail⟩, ⟨.vpnOpen, .fail⟩] ∧
    Event.connect ∉ (runCycle env).events ∧
    ∀ r ∈ (runCycle env).records, ∀ a, r.kind ≠ RecKind.targetPing a := by
  have he : (runCycle env).events =
      [Event.alert 3, Event.alert 3, Event.flush] := by
    simp [runCycle, h]
  have hr : (runCycle env).records =
      [⟨.vpnPing, .fail⟩, ⟨.vpnOpen, .fail⟩] := by
    simp [runCycle, h]
  refine ⟨he, hr, ?_, ?_⟩
  · rw [he]; decide
  · rw [hr]
    intro r hrm a
    rcases List.mem_cons.mp hrm with h' | h'
    · rw [h']; simp
    · rw [List.mem_singleton.mp h']; simp

/-- Witness for C5 (amended): a concrete gateway-Fail cycle produces
exactly the two alert calls, the flush, and the two Fail records. -/
theorem gateway_fail_cycle_witness :
    (runCycle ⟨.fail, .good, [("10.0.0.2", .out .good)], .good⟩).records =
      [⟨.vpnPing, .fail⟩, ⟨.vpnOpen, .fail⟩] :=
  (gateway_fail_cycle ⟨.fail, .good, [("10.0.0.2", .out .good)],
    .good⟩ rfl).2.1

end Vpnmon
